import Mathlib

/-!
Verification of the `CommandBuilder` command-dispatch registry
(`src/python/command_builder.py`) against its specification.

The Python class keeps an ordered list `self.commands` of
`(matcher, types, handler)` entries.  A matcher is either a plain string
(compared by value) or a compiled regular expression (compared by object
identity; its `match` method is anchored at the start of the input and
yields the tuple of captured groups).  We embed the mutable object as an
explicit state record threaded through every method, and Python
exceptions as an `Except` layer: `ValueError` and `TypeError` are the
two exception classes the code can raise or catch.

Handler invocation is observable: the state carries a log of performed
invocations (handler id and argument list), so that "lookup does not
invoke the handler" is a provable statement rather than a convention.
-/

set_option autoImplicit false

namespace CommandBuilder

/-- Python exceptions reachable in this module: `ValueError` (raised by
`type_check`/`try_convert` and caught by `get`) and `TypeError` (raised
by the call machinery, e.g. `func(*None)`). -/
inductive PyError where
  | valueError (msg : String)
  | typeError (msg : String)
  deriving Repr, DecidableEq

/-- Runtime values a conversion can produce.  Floating-point results are
represented by the accepted literal text (no claim inspects float
arithmetic); `obj` stands for an instance of a user-defined type. -/
inductive PyValue where
  | int (n : Int)
  | float (lit : String)
  | bool (b : Bool)
  | str (s : String)
  | obj (tag : Nat)
  deriving Repr, DecidableEq

/-- A declared target type, as stored in the `types` list of an entry.
The four primitives are special-cased by `try_convert`; `custom` models
any other type or callable: `conv` is its single-argument constructor,
where `Except.error ()` models a raised exception and `Except.ok none`
a call that returns Python `None`.  Python compares type objects by
identity, modelled by the `id` field. -/
inductive PyType where
  | int
  | float
  | bool
  | str
  | custom (id : Nat) (conv : String → Except Unit (Option PyValue))

/-- A matcher: a plain string, or a compiled pattern.  A pattern's
`match` behaviour (anchored search returning the captured groups) is the
function `mf`; Python compares compiled patterns by object identity,
modelled by the `id` field (equal ids stand for the same object). -/
inductive Matcher where
  | str (s : String)
  | pattern (id : Nat) (mf : String → Option (List String))

/-- A handler function.  `fn` maps the converted arguments to the
Python return value (`none` models returning `None`); `id` is the
function object's identity, used for `==` on entries and for the
invocation log. -/
structure Handler where
  id : Nat
  fn : List PyValue → Option PyValue

/-- Python `==` on `PyType` values: primitives by kind, other type
objects by identity. -/
def pyTypeBeq : PyType → PyType → Bool
  | .int, .int => true
  | .float, .float => true
  | .bool, .bool => true
  | .str, .str => true
  | .custom i _, .custom j _ => i == j
  | _, _ => false

/-- Python `==` on matchers: strings by value, compiled patterns by
identity; a string never equals a pattern. -/
def matcherBeq : Matcher → Matcher → Bool
  | .str a, .str b => a == b
  | .pattern i _, .pattern j _ => i == j
  | _, _ => false

/-- Python `==` on function objects is identity. -/
def handlerBeq (a b : Handler) : Bool := a.id == b.id

/-- One registered entry: the tuple `(regex, types, func)`. -/
abbrev Entry := Matcher × Option (List PyType) × Handler

/-- Python `==` on two lists of declared types: elementwise. -/
def typesBeq : List PyType → List PyType → Bool
  | [], [] => true
  | a :: as, b :: bs => pyTypeBeq a b && typesBeq as bs
  | _, _ => false

/-- Python `==` on the `types` component (`None` or a list). -/
def optTypesBeq : Option (List PyType) → Option (List PyType) → Bool
  | none, none => true
  | some a, some b => typesBeq a b
  | _, _ => false

/-- Python `==` on two entry tuples: componentwise. -/
def entryBeq (a b : Entry) : Bool :=
  matcherBeq a.1 b.1 && optTypesBeq a.2.1 b.2.1 && handlerBeq a.2.2 b.2.2

/-- Python `==` on two lists of entries: elementwise. -/
def commandsBeq : List Entry → List Entry → Bool
  | [], [] => true
  | a :: as, b :: bs => entryBeq a b && commandsBeq as bs
  | _, _ => false

/-- The state of a `CommandBuilder` object: the ordered entry list
`self.commands`, plus the observable log of handler invocations
(handler id and argument list, in order of occurrence). -/
structure BuilderState where
  commands : List Entry
  calls : List (Nat × List PyValue)

/-- `__init__`: the registry starts empty. -/
def init : BuilderState := ⟨[], []⟩

/-- `add_command`: append the entry unless some existing entry has an
`==`-equal matcher; return whether it was added. -/
def add_command (s : BuilderState) (regex : Matcher) (types : Option (List PyType))
    (func : Handler) : Bool × BuilderState :=
  if (s.commands.filter (fun e => matcherBeq e.1 regex)).length == 0 then
    (true, { s with commands := s.commands ++ [(regex, types, func)] })
  else
    (false, s)

/-- `remove_command`: keep the entries whose matcher is `!=` the given
one, and return `commands == self.commands` — the comparison of the
filtered list with the original list. -/
def remove_command (s : BuilderState) (regex : Matcher) : Bool × BuilderState :=
  let commands := s.commands.filter (fun c => !(matcherBeq c.1 regex))
  let result := commandsBeq commands s.commands
  (result, { s with commands := commands })

/-- Python's stripping of surrounding whitespace (as `int()` and
`float()` do before parsing). -/
def pyStrip (cs : List Char) : List Char :=
  ((cs.dropWhile Char.isWhitespace).reverse.dropWhile Char.isWhitespace).reverse

/-- A non-empty run of decimal digits, read as a number. -/
def pyIntDigits (cs : List Char) : Option Nat :=
  if cs.isEmpty then none
  else if cs.all Char.isDigit then
    some (cs.foldl (fun a c => a * 10 + (c.toNat - 48)) 0)
  else none

/-- Python `int(item)` for a captured-group string: optional
surrounding whitespace, optional sign, then a non-empty run of decimal
digits (the model covers plain decimal literals). -/
def pyIntParse (s : String) : Option Int :=
  match pyStrip s.toList with
  | '-' :: rest => (pyIntDigits rest).map (fun n => -(n : Int))
  | '+' :: rest => (pyIntDigits rest).map (fun n => (n : Int))
  | cs => (pyIntDigits cs).map (fun n => (n : Int))

/-- Python `float(item)` acceptance for a captured-group string:
optional whitespace and sign, then digits with at most one decimal
point and at least one digit (the model covers plain decimal
literals). -/
def pyFloatOk (s : String) : Bool :=
  let cs := pyStrip s.toList
  let cs := match cs with
    | '-' :: rest => rest
    | '+' :: rest => rest
    | other => other
  let intPart := cs.takeWhile (fun c => c ≠ '.')
  match cs.dropWhile (fun c => c ≠ '.') with
  | [] => !intPart.isEmpty && intPart.all Char.isDigit
  | _ :: frac => (!intPart.isEmpty || !frac.isEmpty)
      && intPart.all Char.isDigit && frac.all Char.isDigit

/-- `try_convert(item, target_type)`: dispatch on the target type and
attempt the conversion; any exception raised inside is re-raised as a
`ValueError` naming the offending value and type.  `Except.ok none`
models a conversion that returned Python `None` (possible only for
`custom` targets). -/
def try_convert (item : String) (t : PyType) : Except PyError (Option PyValue) :=
  match t with
  | .int =>
    match pyIntParse item with
    | some n => .ok (some (.int n))
    | none => .error (.valueError ("Failed to convert " ++ item ++ " to int"))
  | .float =>
    if pyFloatOk item then .ok (some (.float (String.mk (pyStrip item.toList))))
    else .error (.valueError ("Failed to convert " ++ item ++ " to float"))
  | .bool => .ok (some (.bool (!item.isEmpty)))
  | .str => .ok (some (.str item))
  | .custom _ conv =>
    match conv item with
    | .ok v => .ok v
    | .error _ => .error (.valueError ("Failed to convert " ++ item ++ " to custom type"))

/-- The inner `for target_type in target_types` loop of `type_check`
for one captured string: call `try_convert` (whose `ValueError`
propagates — the loop has no handler), break on a non-`None` result,
fall through to the next declared type on a `None` result, and produce
nothing when the types are exhausted. -/
def convertLoop (item : String) : List PyType → Except PyError (Option PyValue)
  | [] => .ok none
  | t :: ts =>
    match try_convert item t with
    | .error e => .error e
    | .ok (some v) => .ok (some v)
    | .ok none => convertLoop item ts

/-- The outer `for item in input_list` loop of `type_check`: items are
processed in captured order; a converted value is appended to the
result, an item whose inner loop produced nothing is silently skipped,
and a raised `ValueError` aborts the whole call. -/
def typeCheckItems (ts : List PyType) : List String → Except PyError (List PyValue)
  | [] => .ok []
  | item :: rest =>
    match convertLoop item ts with
    | .error e => .error e
    | .ok (some v) => (typeCheckItems ts rest).map (fun r => v :: r)
    | .ok none => typeCheckItems ts rest

/-- `type_check(input_list, target_types)`: with no declared types,
succeed on an empty capture list and raise a `ValueError` otherwise;
with declared types, run the conversion loops. -/
def type_check (input_list : List String) (target_types : Option (List PyType)) :
    Except PyError (List PyValue) :=
  match target_types with
  | none =>
    if input_list.length == 0 then .ok []
    else
      .error (.valueError ("This function takes no arguments but "
        ++ toString input_list.length ++ " were given."))
  | some ts => typeCheckItems ts input_list

/-- The `for regex, types, func in self.commands` loop of `get`, with
the surrounding `try  ... except ValueError` per iteration: a pattern
matcher that matches has its groups type-checked — on success the entry
is returned, on a `ValueError` the exception is swallowed and the scan
continues; a string matcher is returned (with `None` arguments) exactly
when it equals the whole input. -/
def getLoop (s : BuilderState) (c : String) :
    List Entry → Except PyError ((Option Handler × Option (List PyValue)) × BuilderState)
  | [] => .ok ((none, none), s)
  | (regex, types, func) :: rest =>
    match regex with
    | .pattern _ mf =>
      match mf c with
      | some groups =>
        match type_check groups types with
        | .ok args => .ok ((some func, some args), s)
        | .error (.valueError _) => getLoop s c rest
        | .error e => .error e
      | none => getLoop s c rest
    | .str s0 =>
      if s0 == c then .ok ((some func, none), s)
      else getLoop s c rest

/-- `get(command)`: scan `self.commands` in order and return the first
entry that matches and converts, or `(None, None)`. -/
def get (s : BuilderState) (c : String) :
    Except PyError ((Option Handler × Option (List PyValue)) × BuilderState) :=
  getLoop s c s.commands

/-- `handle(command)`: look the command up with `get`; when a handler
was found, evaluate `func(*params)` — which raises a `TypeError` when
`params` is `None`, since `None` is not iterable — and return
`(True, result)`, recording the invocation; otherwise `(False, None)`. -/
def handle (s : BuilderState) (c : String) :
    Except PyError ((Bool × Option PyValue) × BuilderState) :=
  match get s c with
  | .error e => .error e
  | .ok ((func?, params), s1) =>
    match func? with
    | some f =>
      match params with
      | none => .error (.typeError ("argument after * must be an iterable, not NoneType"))
      | some args =>
        .ok ((true, f.fn args), { s1 with calls := s1.calls ++ [(f.id, args)] })
    | none => .ok ((false, none), s1)

/-- `__call__(command)`: delegates to `handle`. -/
def call (s : BuilderState) (c : String) :
    Except PyError ((Bool × Option PyValue) × BuilderState) :=
  handle s c

/-- `__repr__`: the summary string, with the `'s'` suffix produced by
the conditional `command_count == 1` of the source. -/
def repr (s : BuilderState) : String :=
  let command_count := s.commands.length
  "<CommandBuilder commands: " ++ toString command_count ++ " command"
    ++ (if command_count == 1 then "s" else "") ++ ">"

/-- Specification helper: the outcome of examining one entry inside the
scan of `get`, with a swallowed `ValueError` folded into "no match":
`some (f, args)` when the entry is the one `get` would return (for a
string matcher `args` is `none`, modelling Python `None`). -/
def entryResult (e : Entry) (c : String) : Option (Handler × Option (List PyValue)) :=
  match e.1 with
  | .str s0 => if s0 == c then some (e.2.2, none) else none
  | .pattern _ mf =>
    match mf c with
    | some groups =>
      match type_check groups e.2.1 with
      | .ok args => some (e.2.2, some args)
      | .error _ => none
    | none => none

/-- Specification helper: the first entry of the list that succeeds on
the input, in the sense of `entryResult`. -/
def firstMatch (c : String) : List Entry → Option Handler × Option (List PyValue)
  | [] => (none, none)
  | e :: rest =>
    match entryResult e c with
    | some (f, a) => (some f, a)
    | none => firstMatch c rest

/-- A concrete handler object with identity `i` (returning Python
`None`), for closed instances of the theorems. -/
def mkHandler (i : Nat) : Handler :=
  ⟨i, fun _ => none⟩

/-- The match behaviour of the compiled pattern `re.compile(r'add (.*)')`
used by the spec's non-numeric-capture example: anchored at the start,
one group capturing the rest of the line. -/
def addOneMatch (c : String) : Option (List String) :=
  match c.toList with
  | 'a' :: 'd' :: 'd' :: ' ' :: rest => some [String.mk rest]
  | _ => none

/-- No two registered entries have Python-`==`-equal matchers. -/
def NodupMatchers (l : List Entry) : Prop :=
  l.Pairwise (fun a b => matcherBeq a.1 b.1 = false)

/-- The registry states reachable through the public operations,
starting from the empty registry `__init__` builds. -/
inductive Reachable : BuilderState → Prop where
  | base : Reachable init
  | addStep (s : BuilderState) (m : Matcher) (t : Option (List PyType)) (f : Handler) :
      Reachable s → Reachable (add_command s m t f).2
  | removeStep (s : BuilderState) (m : Matcher) :
      Reachable s → Reachable (remove_command s m).2
  | handleStep (s : BuilderState) (c : String) (r : Bool × Option PyValue)
      (s1 : BuilderState) : Reachable s → handle s c = .ok (r, s1) → Reachable s1

/-- Every exception `try_convert` lets escape is a `ValueError`: the
internal `try` wraps any failure into one. -/
theorem try_convert_error_valueError (item : String) (t : PyType) :
    (∃ v, try_convert item t = .ok v) ∨ ∃ m, try_convert item t = .error (.valueError m) := by
  cases t with
  | int =>
    cases h : pyIntParse item with
    | none =>
      exact Or.inr ⟨("Failed to convert " ++ item ++ " to int"), by simp [try_convert, h]⟩
    | some n => exact Or.inl ⟨some (.int n), by simp [try_convert, h]⟩
  | float =>
    by_cases h : pyFloatOk item
    · exact Or.inl ⟨some (.float (String.mk (pyStrip item.toList))), by simp [try_convert, h]⟩
    · exact Or.inr ⟨("Failed to convert " ++ item ++ " to float"), by simp [try_convert, h]⟩
  | bool => exact Or.inl ⟨some (.bool (!item.isEmpty)), rfl⟩
  | str => exact Or.inl ⟨some (.str item), rfl⟩
  | custom i conv =>
    cases h : conv item with
    | ok v => exact Or.inl ⟨v, by simp [try_convert, h]⟩
    | error u =>
      exact Or.inr ⟨("Failed to convert " ++ item ++ " to custom type"), by simp [try_convert, h]⟩

/-- Every exception the inner conversion loop lets escape is a
`ValueError`. -/
theorem convertLoop_error_valueError (item : String) (ts : List PyType) :
    (∃ v, convertLoop item ts = .ok v) ∨ ∃ m, convertLoop item ts = .error (.valueError m) := by
  induction ts with
  | nil => exact Or.inl ⟨_, rfl⟩
  | cons t ts ih =>
    rcases try_convert_error_valueError item t with ⟨v, hv⟩ | ⟨m, hm⟩
    · cases v with
      | none =>
        rcases ih with ⟨w, hw⟩ | ⟨m, hm⟩
        · exact Or.inl ⟨w, by simp [convertLoop, hv, hw]⟩
        · exact Or.inr ⟨m, by simp [convertLoop, hv, hm]⟩
      | some w => exact Or.inl ⟨some w, by simp [convertLoop, hv]⟩
    · exact Or.inr ⟨m, by simp [convertLoop, hm]⟩

/-- Every exception `type_check` raises is a `ValueError` — both the
argument-count branch and the conversion loops. -/
theorem type_check_error_valueError (items : List String) (tt : Option (List PyType)) :
    (∃ v, type_check items tt = .ok v) ∨ ∃ m, type_check items tt = .error (.valueError m) := by
  cases tt with
  | none =>
    by_cases h : items.length == 0
    · exact Or.inl ⟨[], by simp [type_check, h]⟩
    · exact Or.inr ⟨("This function takes no arguments but "
        ++ toString items.length ++ " were given."), by simp [type_check, h]⟩
  | some ts =>
    induction items with
    | nil => exact Or.inl ⟨[], rfl⟩
    | cons item rest ih =>
      rcases convertLoop_error_valueError item ts with ⟨v, hv⟩ | ⟨m, hm⟩
      · cases v with
        | none =>
          rcases ih with ⟨w, hw⟩ | ⟨m, hm⟩
          · exact Or.inl ⟨w, by simpa [type_check, typeCheckItems, hv] using hw⟩
          · exact Or.inr ⟨m, by simpa [type_check, typeCheckItems, hv] using hm⟩
        | some w =>
          rcases ih with ⟨r, hr⟩ | ⟨m, hm⟩
          · exact Or.inl ⟨w :: r, by
              simp [type_check, typeCheckItems, hv] at hr ⊢; simp [hr, Except.map]⟩
          · exact Or.inr ⟨m, by
              simp [type_check, typeCheckItems, hv] at hm ⊢; simp [hm, Except.map]⟩
      · exact Or.inr ⟨m, by simp [type_check, typeCheckItems, hm]⟩

theorem pyTypeBeq_refl (t : PyType) : pyTypeBeq t t = true := by
  cases t <;> simp [pyTypeBeq]

theorem matcherBeq_refl (m : Matcher) : matcherBeq m m = true := by
  cases m <;> simp [matcherBeq]

theorem typesBeq_refl (l : List PyType) : typesBeq l l = true := by
  induction l with
  | nil => rfl
  | cons t ts ih => simp [typesBeq, pyTypeBeq_refl, ih]

theorem optTypesBeq_refl (o : Option (List PyType)) : optTypesBeq o o = true := by
  cases o with
  | none => rfl
  | some l => simpa [optTypesBeq] using typesBeq_refl l

theorem entryBeq_refl (e : Entry) : entryBeq e e = true := by
  obtain ⟨m, t, f⟩ := e
  simp [entryBeq, matcherBeq_refl, optTypesBeq_refl, handlerBeq]

theorem commandsBeq_refl (l : List Entry) : commandsBeq l l = true := by
  induction l with
  | nil => rfl
  | cons e rest ih => simp [commandsBeq, entryBeq_refl, ih]

theorem commandsBeq_length {as bs : List Entry} (h : commandsBeq as bs = true) :
    as.length = bs.length := by
  induction as generalizing bs with
  | nil => cases bs with
    | nil => rfl
    | cons b bs => simp [commandsBeq] at h
  | cons a as ih =>
    cases bs with
    | nil => simp [commandsBeq] at h
    | cons b bs =>
      simp [commandsBeq] at h
      simp [ih h.2]

/-- The comparison performed by `remove_command` is true exactly when
the filter removed nothing: a strict sublist of equal Python-`==`
cannot arise. -/
theorem filter_commandsBeq_iff (p : Entry → Bool) (l : List Entry) :
    commandsBeq (l.filter p) l = true ↔ l.filter p = l := by
  constructor
  · intro h
    exact (List.filter_sublist l).eq_of_length (commandsBeq_length h)
  · intro h
    rw [h]
    exact commandsBeq_refl l

/-- One step of the scan of `get`, phrased through `entryResult`: the
entry either wins or the scan continues, and no exception escapes. -/
theorem getLoop_cons (s : BuilderState) (c : String) (e : Entry) (rest : List Entry) :
    getLoop s c (e :: rest) =
      match entryResult e c with
      | some (f, a) => .ok ((some f, a), s)
      | none => getLoop s c rest := by
  obtain ⟨regex, types, func⟩ := e
  cases regex with
  | str s0 =>
    by_cases h : s0 == c <;> simp [getLoop, entryResult, h]
  | pattern i mf =>
    cases hm : mf c with
    | none => simp [getLoop, entryResult, hm]
    | some groups =>
      rcases type_check_error_valueError groups types with ⟨v, hv⟩ | ⟨m, hmsg⟩
      · simp [getLoop, entryResult, hm, hv]
      · simp [getLoop, entryResult, hm, hmsg]

/-- `get` is the first-success scan: it never raises, never changes the
state, and returns exactly the first entry accepted by `entryResult`. -/
theorem get_eq_firstMatch (s : BuilderState) (c : String) :
    get s c = .ok (firstMatch c s.commands, s) := by
  show getLoop s c s.commands = .ok (firstMatch c s.commands, s)
  induction s.commands with
  | nil => rfl
  | cons e rest ih =>
    rw [getLoop_cons]
    cases he : entryResult e c with
    | none => simpa [firstMatch, he] using ih
    | some fa => obtain ⟨f, a⟩ := fa; simp [firstMatch, he]

/-- `handle` cannot change the entry list: its only state change is
appending to the invocation log. -/
theorem handle_commands {s : BuilderState} {c : String} {r : Bool × Option PyValue}
    {s1 : BuilderState} (h : handle s c = .ok (r, s1)) : s1.commands = s.commands := by
  unfold handle at h
  rw [get_eq_firstMatch] at h
  cases hfm : firstMatch c s.commands with
  | mk fo po =>
    rw [hfm] at h
    cases fo with
    | none =>
      simp only [Except.ok.injEq, Prod.mk.injEq] at h
      rw [← h.2]
    | some f =>
      cases po with
      | none => exact absurd h (by simp)
      | some args =>
        simp only [Except.ok.injEq, Prod.mk.injEq] at h
        rw [← h.2]

/-- `add_command` preserves the no-duplicate-matchers invariant. -/
theorem add_preserves_nodup (s : BuilderState) (m : Matcher) (t : Option (List PyType))
    (f : Handler) (h : NodupMatchers s.commands) :
    NodupMatchers (add_command s m t f).2.commands := by
  unfold add_command
  cases hc : ((s.commands.filter (fun e => matcherBeq e.1 m)).length == 0) with
  | false => simpa [hc] using h
  | true =>
    have hnil : s.commands.filter (fun e => matcherBeq e.1 m) = [] :=
      List.length_eq_zero.mp (by simpa using hc)
    have hall : ∀ e ∈ s.commands, matcherBeq e.1 m = false := by
      intro e he
      simpa using List.filter_eq_nil_iff.mp hnil e he
    simp only [hc, if_true]
    unfold NodupMatchers at h ⊢
    rw [List.pairwise_append]
    refine ⟨h, List.pairwise_singleton _ _, ?_⟩
    intro a ha b hb
    simp only [List.mem_singleton] at hb
    subst hb
    exact hall a ha

/-- `remove_command` preserves the no-duplicate-matchers invariant. -/
theorem remove_preserves_nodup (s : BuilderState) (m : Matcher)
    (h : NodupMatchers s.commands) : NodupMatchers (remove_command s m).2.commands :=
  List.Pairwise.sublist (List.filter_sublist _) h

/-- Adding a matcher no existing entry equals appends the entry and
reports success. -/
theorem add_command_fresh (s : BuilderState) (m : Matcher) (t : Option (List PyType))
    (f : Handler) (h : ∀ e ∈ s.commands, matcherBeq e.1 m = false) :
    add_command s m t f = (true, ⟨s.commands ++ [(m, t, f)], s.calls⟩) := by
  have hnil : s.commands.filter (fun e => matcherBeq e.1 m) = [] :=
    List.filter_eq_nil_iff.mpr (fun e he => by simp [h e he])
  unfold add_command
  rw [hnil]
  rfl

/-- Adding a matcher some existing entry equals reports failure and
leaves the state untouched. -/
theorem add_command_dup (s : BuilderState) (m : Matcher) (t : Option (List PyType))
    (f : Handler) (e : Entry) (he : e ∈ s.commands) (hm : matcherBeq e.1 m = true) :
    add_command s m t f = (false, s) := by
  have hmem : e ∈ s.commands.filter (fun e => matcherBeq e.1 m) :=
    List.mem_filter.mpr ⟨he, hm⟩
  have hne : (s.commands.filter (fun e => matcherBeq e.1 m)).length ≠ 0 := by
    intro h0
    rw [List.length_eq_zero.mp h0] at hmem
    exact absurd hmem (List.not_mem_nil e)
  unfold add_command
  have : ((s.commands.filter (fun e => matcherBeq e.1 m)).length == 0) = false := by
    simpa using hne
  rw [this]
  rfl

/-- When no entry succeeds, the scan reports not-found. -/
theorem firstMatch_none (c : String) (l : List Entry)
    (h : ∀ e ∈ l, entryResult e c = none) : firstMatch c l = (none, none) := by
  induction l with
  | nil => rfl
  | cons e rest ih =>
    have he : entryResult e c = none := h e (List.mem_cons_self e rest)
    simp [firstMatch, he, ih (fun e1 h1 => h e1 (List.mem_cons_of_mem e h1))]

/-- Sample entries for the closed instances of the theorems. -/
def entryOther : Entry := (Matcher.str ("other"), none, mkHandler 0)

/-- An exact-string entry for the input "hi". -/
def entryHi : Entry := (Matcher.str ("hi"), none, mkHandler 1)

/-- A pattern entry whose pattern accepts every input with no capture
groups (like `re.compile(r'.*')`), so it also accepts "hi". -/
def entryAll : Entry := (Matcher.pattern 7 (fun _ => some []), none, mkHandler 2)

/-- C1: the spec says dispatch on an input equal to an exact-string
matcher invokes the handler and returns `(True, result)`.  The code
instead raises: `get` returns `(func, None)` for a string matcher and
`handle` then evaluates `func(*params)` with `params = None`, a
`TypeError`, for every registry whose sole entry is an exact-string
matcher equal to the input (the module's own `exit` command hits
this). -/
theorem c1_exact_string_dispatch_raises (s0 : String) (t : Option (List PyType))
    (f : Handler) :
    handle ⟨[(Matcher.str s0, t, f)], []⟩ s0
      = .error (.typeError ("argument after * must be an iterable, not NoneType")) := by
  have h := get_eq_firstMatch ⟨[(Matcher.str s0, t, f)], []⟩ s0
  unfold handle
  rw [h]
  simp [firstMatch, entryResult]

/-- C2: the spec says a captured string that fails conversion to one
declared type falls through to the next declared type.  In the code the
`ValueError` raised by `try_convert` is not caught by the loops of
`type_check`, so the first failure aborts the whole coercion: with
captured strings `["x"]` and declared types `[int, str]`, `type_check`
raises instead of converting `"x"` by `str`, although conversion by
`str` alone succeeds. -/
theorem c2_conversion_failure_aborts_type_check :
    type_check [("x")] (some [PyType.int, PyType.str])
      = .error (.valueError ("Failed to convert x to int"))
    ∧ type_check [("x")] (some [PyType.str]) = .ok [PyValue.str ("x")] :=
  ⟨rfl, rfl⟩

/-- C3 counterexample: on the empty registry nothing can be removed,
yet `remove_command` returns `True` and the state is unchanged —
refuting "returns true only if at least one entry was actually removed;
it returns false when no entry was removed". -/
theorem c3_counterexample_remove_from_empty :
    remove_command init (Matcher.str ("x")) = (true, init) := rfl

/-- C3 amended: `remove_command` removes every entry whose matcher
equals the given one, and its boolean result is inverted relative to the
claim: it returns `True` exactly when nothing was removed (the list is
unchanged) and `False` exactly when at least one entry was removed (the
length strictly decreased). -/
theorem c3_remove_true_iff_nothing_removed (s : BuilderState) (m : Matcher) :
    ((remove_command s m).1 = true ↔ (remove_command s m).2.commands = s.commands)
    ∧ ((remove_command s m).1 = false ↔
        (remove_command s m).2.commands.length < s.commands.length) := by
  constructor
  · show commandsBeq (s.commands.filter (fun c => !(matcherBeq c.1 m))) s.commands = true
      ↔ s.commands.filter (fun c => !(matcherBeq c.1 m)) = s.commands
    exact filter_commandsBeq_iff _ _
  · show commandsBeq (s.commands.filter (fun c => !(matcherBeq c.1 m))) s.commands = false
      ↔ (s.commands.filter (fun c => !(matcherBeq c.1 m))).length < s.commands.length
    constructor
    · intro hfalse
      refine Nat.lt_of_le_of_ne (List.Sublist.length_le (List.filter_sublist _)) ?_
      intro hlen
      have heq : s.commands.filter (fun c => !(matcherBeq c.1 m)) = s.commands :=
        (List.filter_sublist _).eq_of_length hlen
      rw [(filter_commandsBeq_iff _ _).mpr heq] at hfalse
      exact absurd hfalse (by simp)
    · intro hlt
      cases hb : commandsBeq (s.commands.filter (fun c => !(matcherBeq c.1 m))) s.commands with
      | false => rfl
      | true =>
        rw [(filter_commandsBeq_iff _ _).mp hb] at hlt
        exact absurd hlt (lt_irrefl _)

/-- C4: conversion failures and argument-count mismatches never escape
the search.  First conjunct: `get` always returns normally, with the
state unchanged, the value being the exception-free first-success scan.
Second: `handle` either returns normally or fails with a `TypeError`
(from handler invocation) — never a `ValueError`.  Third: a registry
whose only entry is the pattern `add (.*)` with declared types `[int]`
dispatches the input `add x` (non-numeric capture) to `(False, None)`
instead of raising. -/
theorem c4_conversion_failures_swallowed :
    (∀ (s : BuilderState) (c : String), get s c = .ok (firstMatch c s.commands, s))
    ∧ (∀ (s : BuilderState) (c : String),
        (∃ r, handle s c = .ok r) ∨ ∃ m, handle s c = .error (.typeError m))
    ∧ ∀ (f : Handler) (i : Nat),
        handle ⟨[(Matcher.pattern i addOneMatch, some [PyType.int], f)], []⟩ ("add x")
          = .ok ((false, none),
              ⟨[(Matcher.pattern i addOneMatch, some [PyType.int], f)], []⟩) := by
  refine ⟨get_eq_firstMatch, ?_, ?_⟩
  · intro s c
    unfold handle
    rw [get_eq_firstMatch]
    cases hfm : firstMatch c s.commands with
    | mk fo po =>
      cases fo with
      | none => exact Or.inl ⟨((false, none), s), by simp⟩
      | some f =>
        cases po with
        | none =>
          exact Or.inr ⟨("argument after * must be an iterable, not NoneType"), by simp⟩
        | some args =>
          exact Or.inl ⟨((true, f.fn args), { s with calls := s.calls ++ [(f.id, args)] }),
            by simp⟩
  · intro f i
    have he : entryResult (Matcher.pattern i addOneMatch, some [PyType.int], f) ("add x")
        = none := rfl
    have h := get_eq_firstMatch
      ⟨[(Matcher.pattern i addOneMatch, some [PyType.int], f)], []⟩ ("add x")
    unfold handle
    rw [h]
    simp [firstMatch, he]

/-- C5: at every reachable state no two entries have `==`-equal
matchers; adding a matcher equal to no existing one appends the entry
and returns `True`; adding one equal to an existing entry's returns
`False` and leaves the state completely unchanged; and adding `m1` then
a distinct `m2` succeeds twice while adding `m1` twice succeeds only
the first time. -/
theorem c5_matcher_uniqueness :
    (∀ s : BuilderState, Reachable s → NodupMatchers s.commands)
    ∧ (∀ (s : BuilderState) (m : Matcher) (t : Option (List PyType)) (f : Handler),
        (∀ e ∈ s.commands, matcherBeq e.1 m = false) →
          add_command s m t f = (true, ⟨s.commands ++ [(m, t, f)], s.calls⟩))
    ∧ (∀ (s : BuilderState) (m : Matcher) (t : Option (List PyType)) (f : Handler)
        (e : Entry), e ∈ s.commands → matcherBeq e.1 m = true →
          add_command s m t f = (false, s))
    ∧ (∀ (m1 m2 : Matcher) (t1 t2 t3 : Option (List PyType)) (f1 f2 f3 : Handler),
        matcherBeq m1 m2 = false →
          (add_command init m1 t1 f1).1 = true
          ∧ (add_command (add_command init m1 t1 f1).2 m2 t2 f2).1 = true
          ∧ (add_command (add_command init m1 t1 f1).2 m1 t3 f3).1 = false) := by
  refine ⟨?_, add_command_fresh, add_command_dup, ?_⟩
  · intro s h
    induction h with
    | base => exact List.Pairwise.nil
    | addStep s m t f _ ih => exact add_preserves_nodup s m t f ih
    | removeStep s m _ ih => exact remove_preserves_nodup s m ih
    | handleStep s c r s1 _ hh ih => rw [handle_commands hh]; exact ih
  · intro m1 m2 t1 t2 t3 f1 f2 f3 h12
    have h1 : add_command init m1 t1 f1 = (true, ⟨[(m1, t1, f1)], []⟩) :=
      add_command_fresh init m1 t1 f1 (fun e he => absurd he (List.not_mem_nil e))
    refine ⟨by rw [h1], ?_, ?_⟩
    · have h2 : add_command (add_command init m1 t1 f1).2 m2 t2 f2
          = (true, ⟨[(m1, t1, f1)] ++ [(m2, t2, f2)], []⟩) := by
        rw [h1]
        exact add_command_fresh ⟨[(m1, t1, f1)], []⟩ m2 t2 f2
          (by intro e he; simp at he; rw [he]; exact h12)
      rw [h2]
    · have h3 : add_command (add_command init m1 t1 f1).2 m1 t3 f3
          = (false, (add_command init m1 t1 f1).2) := by
        refine add_command_dup _ m1 t3 f3 (m1, t1, f1) ?_ (matcherBeq_refl m1)
        rw [h1]
        exact List.mem_singleton.mpr rfl
      rw [h3]

/-- C5 witness: the add-add scenario at the concrete matchers "a" and
"b", straight from the theorem. -/
theorem c5_matcher_uniqueness_witness :
    (add_command init (Matcher.str ("a")) none (mkHandler 0)).1 = true
    ∧ (add_command (add_command init (Matcher.str ("a")) none (mkHandler 0)).2
        (Matcher.str ("b")) none (mkHandler 1)).1 = true
    ∧ (add_command (add_command init (Matcher.str ("a")) none (mkHandler 0)).2
        (Matcher.str ("a")) none (mkHandler 2)).1 = false :=
  c5_matcher_uniqueness.2.2.2 (Matcher.str ("a")) (Matcher.str ("b"))
    none none none (mkHandler 0) (mkHandler 1) (mkHandler 2) rfl

/-- C6: registration order is precedence: whenever every entry
registered before `e` fails on the input (no match, or conversion
failure) and `e` succeeds, both the lookup and hence the dispatch
resolve `e`'s handler — the first-registered matching entry wins. -/
theorem c6_first_match_wins (s : BuilderState) (c : String) (pre post : List Entry)
    (e : Entry) (f : Handler) (a : Option (List PyValue))
    (hs : s.commands = pre ++ e :: post)
    (hpre : ∀ e1 ∈ pre, entryResult e1 c = none)
    (he : entryResult e c = some (f, a)) :
    get s c = .ok ((some f, a), s) := by
  have key : ∀ l : List Entry, (∀ e1 ∈ l, entryResult e1 c = none) →
      firstMatch c (l ++ e :: post) = (some f, a) := by
    intro l
    induction l with
    | nil => intro _; simp [firstMatch, he]
    | cons p ps ih =>
      intro hl
      have hp : entryResult p c = none := hl p (List.mem_cons_self p ps)
      have hr := ih (fun e1 h1 => hl e1 (List.mem_cons_of_mem p h1))
      simp [firstMatch, hp, hr]
  rw [get_eq_firstMatch, hs, key pre hpre]

/-- C6 witness: two entries accept the input "hi" (the exact string
"hi" and a match-everything pattern); the first-registered one is
resolved. -/
theorem c6_first_match_wins_witness :
    get ⟨[entryOther, entryHi, entryAll], []⟩ ("hi")
      = .ok ((some (mkHandler 1), none), ⟨[entryOther, entryHi, entryAll], []⟩) :=
  c6_first_match_wins ⟨[entryOther, entryHi, entryAll], []⟩ ("hi")
    [entryOther] [entryAll] entryHi (mkHandler 1) none rfl
    (by intro e1 h1; simp at h1; rw [h1]; rfl) rfl

/-- C7: the spec says `describe()` pluralizes correctly (singular
exactly for one command).  The code's conditional appends `'s'` exactly
when the count is 1: one registered command prints "1 commands" while
zero or two print "0 command" and "2 command" — the opposite of correct
pluralization. -/
theorem c7_repr_pluralization_inverted :
    repr ⟨[entryHi], []⟩ = ("<CommandBuilder commands: 1 commands>")
    ∧ repr init = ("<CommandBuilder commands: 0 command>")
    ∧ repr ⟨[entryHi, entryOther], []⟩ = ("<CommandBuilder commands: 2 command>") :=
  ⟨rfl, rfl, rfl⟩

/-- C8: `get` leaves the whole state (entry list and invocation log)
unchanged; `handle` leaves the entry list unchanged; `add_command`
either appends one entry or changes nothing; `remove_command` never
grows the list and performs no invocation; and when no entry succeeds,
lookup returns `(None, None)`. -/
theorem c8_frame :
    (∀ (s : BuilderState) (c : String), ∃ r, get s c = .ok (r, s))
    ∧ (∀ (s : BuilderState) (c : String) (r : Bool × Option PyValue) (s1 : BuilderState),
        handle s c = .ok (r, s1) → s1.commands = s.commands)
    ∧ (∀ (s : BuilderState) (m : Matcher) (t : Option (List PyType)) (f : Handler),
        (add_command s m t f).2.commands = s.commands ++ [(m, t, f)]
        ∨ (add_command s m t f).2.commands = s.commands)
    ∧ (∀ (s : BuilderState) (m : Matcher),
        (remove_command s m).2.commands.length ≤ s.commands.length
        ∧ (remove_command s m).2.calls = s.calls)
    ∧ (∀ (s : BuilderState) (c : String),
        (∀ e ∈ s.commands, entryResult e c = none) → get s c = .ok ((none, none), s)) := by
  refine ⟨?_, ?_, ?_, ?_, ?_⟩
  · intro s c
    exact ⟨firstMatch c s.commands, get_eq_firstMatch s c⟩
  · intro s c r s1 h
    exact handle_commands h
  · intro s m t f
    unfold add_command
    cases hc : ((s.commands.filter (fun e => matcherBeq e.1 m)).length == 0) with
    | true => exact Or.inl (by simp)
    | false => exact Or.inr (by simp)
  · intro s m
    exact ⟨List.Sublist.length_le (List.filter_sublist _), rfl⟩
  · intro s c h
    rw [get_eq_firstMatch, firstMatch_none c s.commands h]

/-- C8 witness: on the empty registry nothing matches, and lookup
reports `(None, None)` with the state unchanged. -/
theorem c8_frame_witness : get init ("x") = .ok ((none, none), init) :=
  c8_frame.2.2.2.2 init ("x") (fun e h => absurd h (List.not_mem_nil e))

/-- C9: invoking the registry object as a function (`__call__`) returns
exactly what `handle` (dispatch) returns, on every state and input: the
two entry points are the same function. -/
theorem c9_call_is_handle (s : BuilderState) (c : String) : call s c = handle s c := rfl

/-- C10: conversion to `bool` never fails: `bool(item)` on a string is
its truthiness, `False` for the empty string and `True` for every
non-empty one, including the text "False"; consequently `type_check`
with `bool` first in the declared types succeeds on every capture list,
converting each captured string in order — such an entry can never be
skipped on account of boolean conversion failure. -/
theorem c10_bool_conversion_never_fails :
    (∀ item : String, try_convert item PyType.bool = .ok (some (.bool (!item.isEmpty))))
    ∧ try_convert ("") PyType.bool = .ok (some (.bool false))
    ∧ try_convert ("False") PyType.bool = .ok (some (.bool true))
    ∧ ∀ (items : List String) (ts : List PyType),
        type_check items (some (PyType.bool :: ts))
          = .ok (items.map (fun i => PyValue.bool (!i.isEmpty))) := by
  refine ⟨fun item => rfl, rfl, rfl, ?_⟩
  intro items ts
  induction items with
  | nil => rfl
  | cons item rest ih =>
    have ih2 : typeCheckItems (PyType.bool :: ts) rest
        = .ok (rest.map (fun i => PyValue.bool (!i.isEmpty))) := ih
    show typeCheckItems (PyType.bool :: ts) (item :: rest) = _
    simp only [typeCheckItems, convertLoop, try_convert]
    rw [ih2]
    simp [Except.map]

end CommandBuilder
